import Mathlib

/-!
Verification of the site_monitor repository's health-state machine
(`waf_monitor/monitor.py`) and process-supervision watchdog
(`waf_monitor/watchdog.py`) against its natural-language specification.

The Python code is shallowly embedded: each dictionary becomes an
association list or a structure, each stateful method becomes a pure
state-transition function, alert emissions (`alerter.send_alert`) become
elements of an emitted-alert list, and Python exceptions become `Except`.
-/

namespace SiteMonitor

/-! ## Alerts

`alerter.send_alert(message, severity, alert_type)` is modelled by the
pair (severity, alert_type); the message text plays no role in the
claims under verification. -/

inductive Severity
  | info
  | warning
  | error
deriving DecidableEq, Repr

inductive AlertType
  | site
  | proc
  | general
deriving DecidableEq, Repr

structure Alert where
  severity : Severity
  alertType : AlertType
deriving DecidableEq, Repr

/-! ## Health-state machine (`URLMonitor.check_health`)

Per-target state is the Python dict value `{'count': ..., 'alerted': ...}`
stored in `self.url_health[url]`. -/

structure HealthEntry where
  count : Nat
  alerted : Bool
deriving DecidableEq, Repr

/-- Python raises `ZeroDivisionError` on `n % 0`; exceptions that matter
to the embedding are collected here. -/
inductive PyError
  | zeroDivision
deriving DecidableEq, Repr

/-- The failure branch of `URLMonitor.check_health` (monitor.py lines
94-117, identical logic in the exception handler lines 139-161):
increment `count`, compute `need_alert = count % unhealthy_threshold == 0`,
set `alerted` when `need_alert`, and outside the lock send a
warning-severity `site` alert when `need_alert`.  A threshold of 0 makes
the Python `%` raise `ZeroDivisionError`. -/
def check_health_failure (unhealthy_threshold : Nat) (st : HealthEntry) :
    Except PyError (HealthEntry × List Alert) :=
  if unhealthy_threshold = 0 then
    .error .zeroDivision
  else
    let count := st.count + 1
    let need_alert := count % unhealthy_threshold = 0
    let st' : HealthEntry :=
      { count := count, alerted := if need_alert then true else st.alerted }
    .ok (st', if need_alert then [⟨.warning, .site⟩] else [])

/-- The success branch of `URLMonitor.check_health` (monitor.py lines
118-137): read `alerted` under the lock, reset the entry to
`{count: 0, alerted: False}`, and outside the lock send an info-severity
`site` recovery alert when the old `alerted` was true. -/
def check_health_success (st : HealthEntry) : HealthEntry × List Alert :=
  let was_alerted := st.alerted
  (⟨0, false⟩, if was_alerted then [⟨.info, .site⟩] else [])

/-- Ordered events of the success branch, as they occur in the source:
the state reset happens inside the `with self.lock:` block (monitor.py
lines 119-124) and the recovery notification is sent afterwards, outside
the lock (lines 131-137). -/
inductive SuccessEvent
  | clearState
  | emitRecovery
deriving DecidableEq, Repr

/-- Event trace of the success branch of `check_health`, in source
order. -/
def check_health_success_events (st : HealthEntry) : List SuccessEvent :=
  SuccessEvent.clearState ::
    (if st.alerted then [SuccessEvent.emitRecovery] else [])

/-- Outcome of `requests.get(url, timeout=...)` as seen by
`check_health`: either a response with a status code and an elapsed time
(in microseconds), or an exception. -/
inductive CheckOutcome
  | response (status_code : Nat) (elapsedMicros : Nat)
  | exc
deriving DecidableEq, Repr

/-- Whole-body branch selection of `URLMonitor.check_health`: the
failure branch runs when the status code differs from 200 or the elapsed
time exceeds `response_timeout` (monitor.py line 94), or when the request
raised (line 139); otherwise the success branch runs.  `timeoutMicros`
is `response_timeout` expressed in microseconds. -/
def check_health (unhealthy_threshold timeoutMicros : Nat)
    (o : CheckOutcome) (st : HealthEntry) :
    Except PyError (HealthEntry × List Alert) :=
  match o with
  | .response status_code elapsed =>
      if status_code ≠ 200 ∨ elapsed > timeoutMicros then
        check_health_failure unhealthy_threshold st
      else
        .ok (check_health_success st)
  | .exc => check_health_failure unhealthy_threshold st

/-- An outcome is a failing check: non-200 status, latency over the
timeout, or an exception. -/
def failingOutcome (timeoutMicros : Nat) (o : CheckOutcome) : Prop :=
  match o with
  | .response status_code elapsed => status_code ≠ 200 ∨ elapsed > timeoutMicros
  | .exc => True

instance (t : Nat) (o : CheckOutcome) : Decidable (failingOutcome t o) := by
  cases o <;> simp [failingOutcome] <;> infer_instance

/-! ## Configuration lookup (`monitor.py` lines 177-188)

`utils.merge_configs` copies the global dict and overlays the group dict
(group wins); `config.get('unhealthy_threshold', 3)` falls back to the
default 3.  Dictionaries are modelled as association lists of
string-keyed integer settings.  No validation of the value is performed
anywhere in the source. -/

abbrev Config := List (String × Nat)

/-- Model of `dict.get(key, default)`. -/
def configGet (c : Config) (key : String) (default : Nat) : Nat :=
  match c.lookup key with
  | some v => v
  | none => default

/-- Model of `utils.merge_configs(global_config, group_config)`: result looks up
the group config first, then the global one. -/
def merge_configs (globalC groupC : Config) : Config :=
  groupC ++ globalC

/-- Model of `self.unhealthy_threshold = config.get('unhealthy_threshold', 3)`
(monitor.py line 187): the configured value is accepted unchecked. -/
def loadUnhealthyThreshold (c : Config) : Nat :=
  configGet c "unhealthy_threshold" 3

/-! ## Health-state store reconciliation (`monitor.py` lines 215-224)

`self.url_health` is a dict keyed by URL; the reconciliation loop first
deletes keys absent from the freshly loaded `urls` list, then inserts
`{'count': 0, 'alerted': False}` for URLs not yet present. -/

/-- First-match association-list lookup, the dict access
`self.url_health[url]`. -/
def lookupH : List (String × HealthEntry) → String → Option HealthEntry
  | [], _ => none
  | (k, v) :: t, u => if u = k then some v else lookupH t u

/-- The deletion loop: `for url in list(self.url_health.keys()): if url
not in urls: del self.url_health[url]`. -/
def dropRemoved (health : List (String × HealthEntry)) (urls : List String) :
    List (String × HealthEntry) :=
  health.filter (fun p => decide (p.1 ∈ urls))

/-- The insertion loop: `for url in urls: if url not in self.url_health:
self.url_health[url] = {'count': 0, 'alerted': False}`. -/
def addNew (health : List (String × HealthEntry)) (urls : List String) :
    List (String × HealthEntry) :=
  urls.foldl
    (fun acc u =>
      if (lookupH acc u).isSome then acc else acc ++ [(u, ⟨0, false⟩)])
    health

/-- The whole reconciliation step of one polling cycle. -/
def reconcile (health : List (String × HealthEntry)) (urls : List String) :
    List (String × HealthEntry) :=
  addNew (dropRemoved health urls) urls

/-! ## Polling-cycle retry/backoff (`monitor.py` lines 172-248)

The `while self.running:` loop wraps each cycle in
`try ... except ... else`; the except branch increments `_retry_count`
and sleeps `min(300, 10 * 2 ** (retry_count - 1))` seconds, the else
branch resets `_retry_count` to 0.  Nothing in either branch touches
`self.running`; only `stop()` (line 261) sets it to `False`. -/

structure MonitorLoopState where
  running : Bool
  retry_count : Nat
deriving DecidableEq, Repr

/-- One iteration of the scheduler loop at the cycle boundary:
`cycleFailed` records whether an exception escaped steps (1)-(5) of the
cycle.  Returns the new loop state and the number of seconds slept after
the cycle body (`backoff_time` on failure, `monitor_interval` on
success). -/
def monitor_urls_cycle (monitor_interval : Nat) (st : MonitorLoopState)
    (cycleFailed : Bool) : MonitorLoopState × Nat :=
  if cycleFailed then
    let retry_count := st.retry_count + 1
    let backoff_time := min 300 (10 * 2 ^ (retry_count - 1))
    ({ st with retry_count := retry_count }, backoff_time)
  else
    ({ st with retry_count := 0 }, monitor_interval)

/-- Model of `URLMonitor.stop()` (monitor.py line 261): the only way the loop
condition `self.running` becomes false. -/
def monitor_stop (st : MonitorLoopState) : MonitorLoopState :=
  { st with running := false }

/-- Retry counter after a sequence of cycle outcomes (`true` = the cycle
failed), starting from `_retry_count = 0` (the `getattr` default). -/
def retryAfter (outcomes : List Bool) : Nat :=
  outcomes.foldl (fun r failed => if failed then r + 1 else 0) 0

/-- The number of consecutive failed cycles at the end of the outcome
sequence. -/
def trailingFailures (outcomes : List Bool) : Nat :=
  (outcomes.reverse.takeWhile (· = true)).length

/-! ## `datetime` values and ISO-8601 serialization

`watchdog.py` timestamps are Python `datetime` objects; they are
serialized with `datetime.isoformat()` and parsed back with
`datetime.fromisoformat()` (`ProcessInfo.to_dict`/`from_dict`), and
compared via `(a - b).total_seconds()` (`Watchdog.restart_process`).
The ISO string is modelled as its character list. -/

structure PyDateTime where
  year : Nat
  month : Nat
  day : Nat
  hour : Nat
  minute : Nat
  second : Nat
  microsecond : Nat
deriving DecidableEq, Repr

/-- Field bounds under which the fixed-width ISO rendering is faithful;
every value `datetime` can hold satisfies them. -/
def PyDateTime.Valid (t : PyDateTime) : Prop :=
  t.year < 10000 ∧ t.month < 100 ∧ t.day < 100 ∧ t.hour < 100 ∧
    t.minute < 100 ∧ t.second < 100 ∧ t.microsecond < 1000000

instance (t : PyDateTime) : Decidable t.Valid := by
  unfold PyDateTime.Valid; infer_instance

/-- Decimal digit as a character, code point 48 + value. -/
def digitChar (n : Nat) : Char :=
  Char.ofNat (48 + n % 10)

/-- Numeric value of a decimal-digit character, failing on anything
outside '0'..'9'. -/
def digitVal? (c : Char) : Option Nat :=
  if '0' ≤ c ∧ c ≤ '9' then some (c.toNat - 48) else none

/-- Two-digit zero-padded decimal rendering (for values below 100). -/
def pad2 (n : Nat) : List Char :=
  [digitChar (n / 10), digitChar (n % 10)]

/-- Four-digit zero-padded decimal rendering (for values below 10000). -/
def pad4 (n : Nat) : List Char :=
  [digitChar (n / 1000), digitChar (n / 100 % 10), digitChar (n / 10 % 10),
    digitChar (n % 10)]

/-- Six-digit zero-padded decimal rendering (for values below 1000000). -/
def pad6 (n : Nat) : List Char :=
  [digitChar (n / 100000), digitChar (n / 10000 % 10), digitChar (n / 1000 % 10),
    digitChar (n / 100 % 10), digitChar (n / 10 % 10), digitChar (n % 10)]

/-- Model of `datetime.isoformat()`: `YYYY-MM-DDTHH:MM:SS`, followed by
`.ffffff` exactly when the microsecond field is non-zero. -/
def isoformat (t : PyDateTime) : List Char :=
  pad4 t.year ++ '-' :: pad2 t.month ++ '-' :: pad2 t.day ++
    'T' :: pad2 t.hour ++ ':' :: pad2 t.minute ++ ':' :: pad2 t.second ++
    (if t.microsecond = 0 then [] else '.' :: pad6 t.microsecond)

def parse2 (a b : Char) : Option Nat := do
  let x ← digitVal? a
  let y ← digitVal? b
  some (10 * x + y)

def parse4 (a b c d : Char) : Option Nat := do
  let x ← parse2 a b
  let y ← parse2 c d
  some (100 * x + y)

def parse6 (a b c d e f : Char) : Option Nat := do
  let x ← parse2 a b
  let y ← parse2 c d
  let z ← parse2 e f
  some (10000 * x + 100 * y + z)

/-- Parse of the optional fractional-seconds suffix of an ISO string. -/
def parseFraction (rest : List Char) : Option Nat :=
  match rest with
  | [] => some 0
  | p :: u1 :: u2 :: u3 :: u4 :: u5 :: u6 :: [] =>
      if p = '.' then parse6 u1 u2 u3 u4 u5 u6 else none
  | _ => none

/-- Model of `datetime.fromisoformat()`, restricted to the shapes
`isoformat` produces; any other input fails (Python raises
`ValueError`). -/
def fromisoformat (cs : List Char) : Option PyDateTime :=
  match cs with
  | y1 :: y2 :: y3 :: y4 :: q1 :: m1 :: m2 :: q2 :: d1 :: d2 ::
      q3 :: h1 :: h2 :: q4 :: n1 :: n2 :: q5 :: s1 :: s2 :: rest =>
    if q1 = '-' ∧ q2 = '-' ∧ q3 = 'T' ∧ q4 = ':' ∧ q5 = ':' then do
      let y ← parse4 y1 y2 y3 y4
      let mo ← parse2 m1 m2
      let d ← parse2 d1 d2
      let h ← parse2 h1 h2
      let mi ← parse2 n1 n2
      let s ← parse2 s1 s2
      let us ← parseFraction rest
      some ⟨y, mo, d, h, mi, s, us⟩
    else none
  | _ => none

/-- Days in the proleptic Gregorian calendar strictly before month `m`
of a year whose leap flag is `leap` (the `datetime.date.toordinal`
month table). -/
def daysBeforeMonth (leap : Bool) (m : Nat) : Nat :=
  (match m with
   | 1 => 0
   | 2 => 31
   | 3 => 59
   | 4 => 90
   | 5 => 120
   | 6 => 151
   | 7 => 181
   | 8 => 212
   | 9 => 243
   | 10 => 273
   | 11 => 304
   | _ => 334) + (if leap ∧ 3 ≤ m then 1 else 0)

def isLeapYear (y : Nat) : Bool :=
  (y % 4 == 0 && y % 100 != 0) || y % 400 == 0

/-- Model of `datetime.date.toordinal()`: day number with 0001-01-01 as day 1. -/
def dateOrdinal (y m d : Nat) : Nat :=
  365 * (y - 1) + (y - 1) / 4 - (y - 1) / 100 + (y - 1) / 400 +
    daysBeforeMonth (isLeapYear y) m + d

/-- The instant as microseconds from the calendar origin; differences of
this quantity are what `(a - b).total_seconds()` measures (scaled by
10^6). -/
def toMicros (t : PyDateTime) : Nat :=
  (dateOrdinal t.year t.month t.day * 86400 + t.hour * 3600 +
      t.minute * 60 + t.second) * 1000000 + t.microsecond

/-- Model of `(a - b).total_seconds()`, expressed exactly in microseconds. -/
def microsBetween (a b : PyDateTime) : Int :=
  (toMicros a : Int) - (toMicros b : Int)

/-! ## Watchdog (`waf_monitor/watchdog.py`)

Supervision-record statuses are the Chinese status strings of the
source; the substring test `"手动停止" in current_status` holds exactly
for `已手动停止` among them. -/

inductive PStatus
  | unknown            -- "未知"
  | running            -- "运行中"
  | stopped            -- "已停止"
  | stoppedMaxRestarts -- "已停止 - 超过最大重启次数"
  | stoppedManually    -- "已手动停止"
deriving DecidableEq, Repr

/-- Model of `ProcessInfo` (watchdog.py lines 18-31).  The `__init__` arguments
`last_check_time`/`last_start_time` default to `datetime.now()` when
absent (`x or datetime.now()`), so the stored fields are never `None`. -/
structure ProcessInfo where
  group_name : String
  pid : Option Nat
  status : PStatus
  restart_count : Nat
  last_check_time : PyDateTime
  last_start_time : PyDateTime
  was_restarted : Bool
  need_alert : Bool
deriving DecidableEq, Repr

/-- Model of `ProcessInfo(group_name, pid)` with all remaining defaults:
status `未知`, zero restarts, both timestamps `datetime.now()`,
`was_restarted=False`, `need_alert=True`. -/
def ProcessInfo.init (group_name : String) (pid : Option Nat)
    (now : PyDateTime) : ProcessInfo :=
  ⟨group_name, pid, .unknown, 0, now, now, false, true⟩

/-- Environment observed by one `Watchdog.check_process` call. -/
structure CheckObs where
  /-- Model of `utils.load_pid(group_name)`: `none` when the PID file is absent
  or its content is not an integer. -/
  filePid : Option Nat
  /-- Model of `os.path.exists` on the PID file. -/
  pidFileExists : Bool
  /-- Model of `psutil.Process(pid)` (and the subsequent accesses) raised none of
  `NoSuchProcess`/`AccessDenied`/`ZombieProcess`. -/
  alive : Bool
  /-- Model of `any(f"monitor_{group_name}.py" in cmd for cmd in process.cmdline())`. -/
  cmdlineMatches : Bool
  /-- Model of `datetime.now()` taken during the check. -/
  now : PyDateTime
deriving DecidableEq, Repr

structure CheckResult where
  info : ProcessInfo
  isRunning : Bool
  removedPidFile : Bool
deriving DecidableEq, Repr

/-- Model of `Watchdog.check_process` (watchdog.py lines 122-219) for one group:
state transition of that group's `ProcessInfo` record plus the returned
running flag and whether a PID file was deleted. -/
def check_process (group_name : String) (rec0 : Option ProcessInfo)
    (o : CheckObs) : CheckResult :=
  let pid := o.filePid
  -- lines 131-133: initialize the record when missing
  let r1 :=
    match rec0 with
    | some r => r
    | none => ProcessInfo.init group_name pid o.now
  -- lines 135-140: a changed PID (both non-None) resets restart_count
  let r2 :=
    if pid.isSome ∧ r1.pid.isSome ∧ pid ≠ r1.pid then
      { r1 with restart_count := 0 }
    else r1
  -- lines 142-144
  let r3 := { r2 with pid := pid, last_check_time := o.now }
  match pid with
  | none =>
    -- lines 147-171: no readable PID; clean up any leftover file
    if r3.status = .stopped ∨ r3.status = .stoppedManually then
      ⟨{ r3 with status := .stoppedManually, need_alert := false },
        false, o.pidFileExists⟩
    else
      ⟨{ r3 with status := .stopped }, false, o.pidFileExists⟩
  | some _ =>
    if ¬ o.alive then
      -- lines 206-219: psutil raised; remove the stale PID file
      ⟨{ r3 with status := .stopped }, false, o.pidFileExists⟩
    else if ¬ o.cmdlineMatches then
      -- lines 181-192: live process is not ours; remove the stale file
      ⟨{ r3 with status := .stopped }, false, o.pidFileExists⟩
    else
      -- lines 194-204: verified running; a stopped->running transition
      -- resets the counter and re-enables alerting
      let r4 :=
        if r3.status = .stopped ∨ r3.status = .stoppedMaxRestarts ∨
            r3.status = .stoppedManually then
          { r3 with restart_count := 0, need_alert := true }
        else r3
      ⟨{ r4 with status := .running }, true, false⟩

/-- Environment observed by one `Watchdog.restart_process` call. -/
structure RestartObs where
  /-- Model of `datetime.now()` taken at the top of the call. -/
  now : PyDateTime
  /-- Model of `subprocess.Popen` (and the surrounding `try` body) did not raise. -/
  spawnOk : Bool
  /-- Model of `utils.is_process_running(process.pid)` after the 2-second grace
  period. -/
  newPidAlive : Bool
deriving DecidableEq, Repr

/-- Model of `Watchdog.restart_process` (watchdog.py lines 221-287) for a group
already present in `self.processes`: computes the alert-suppression
flag from the record's `last_check_time`, increments `restart_count`,
spawns the monitor script, and returns the updated record together with
the restart-success flag. -/
def restart_process (r : ProcessInfo) (o : RestartObs) : ProcessInfo × Bool :=
  -- lines 232-241: suppress alerting when checked less than 60s ago
  let need_alert := ¬ (microsBetween o.now r.last_check_time < 60 * 1000000)
  -- lines 243-248
  let r1 := { r with restart_count := r.restart_count + 1,
                     last_start_time := o.now, was_restarted := true }
  if ¬ o.spawnOk then
    -- lines 285-287: the except branch returns False; the increments
    -- above already happened, the need_alert field is left untouched
    (r1, false)
  else
    let restart_success := o.newPidAlive
    -- lines 278-281
    let r2 := { r1 with need_alert := decide need_alert && restart_success }
    (r2, restart_success)

structure PassObs where
  chk : CheckObs
  rst : RestartObs
deriving DecidableEq, Repr

structure PassResult where
  info : ProcessInfo
  alerts : List Alert
  attemptedRestart : Bool
deriving DecidableEq, Repr

/-- One group's slice of `Watchdog.check_all_processes` (watchdog.py
lines 297-372): run `check_process`, then — unless the group is
running, manually stopped, or over the restart cap — possibly restart
and alert.  The alerter instance is assumed present (`self.alerter`
non-None). -/
def check_group (group_name : String) (max_restarts : Nat)
    (rec0 : Option ProcessInfo) (o : PassObs) : PassResult :=
  let c := check_process group_name rec0 o.chk
  if c.isRunning then
    ⟨c.info, [], false⟩
  else
    let process_info := c.info
    if process_info.status = .stoppedManually then
      -- lines 305-309: skip restart and alert
      ⟨process_info, [], false⟩
    else if process_info.restart_count ≥ max_restarts then
      -- lines 313-335: over the cap; mark and send an error alert
      ⟨{ process_info with status := .stoppedMaxRestarts },
        [⟨.error, .proc⟩], false⟩
    else if process_info.need_alert then
      -- lines 337-369
      let res := restart_process process_info o.rst
      if res.2 ∧ res.1.need_alert then
        ⟨res.1, [⟨.warning, .proc⟩], true⟩       -- "已自动重启"
      else if ¬ res.2 then
        ⟨res.1, [⟨.warning, .proc⟩], true⟩       -- "重启失败"
      else
        ⟨res.1, [], true⟩                        -- suppressed
    else
      -- lines 370-372: record flagged as not needing alerts: no restart
      ⟨process_info, [], false⟩

/-- Several consecutive watchdog passes over one group: final record,
all alerts emitted, and the number of restart attempts made. -/
def run_group_passes (group_name : String) (max_restarts : Nat)
    (rec0 : Option ProcessInfo) (obs : List PassObs) :
    Option ProcessInfo × List Alert × Nat :=
  obs.foldl
    (fun acc o =>
      let res := check_group group_name max_restarts acc.1 o
      (some res.info, acc.2.1 ++ res.alerts,
        acc.2.2 + (if res.attemptedRestart then 1 else 0)))
    (rec0, [], 0)

/-! ## `ProcessInfo` serialization (`to_dict` / `from_dict`) -/

/-- The dictionary shape written by `ProcessInfo.to_dict` (watchdog.py
lines 33-44) and read by `ProcessInfo.from_dict` (lines 46-58);
timestamps travel as ISO strings. -/
structure ProcessInfoDict where
  group_name : String
  pid : Option Nat
  status : PStatus
  restart_count : Nat
  last_check_time : Option (List Char)
  last_start_time : Option (List Char)
  was_restarted : Bool
  need_alert : Bool
deriving DecidableEq, Repr

/-- Model of `ProcessInfo.to_dict`: the timestamp fields are always `datetime`
objects (never `None`, see `ProcessInfo.__init__`), so the
`... if self.last_check_time else None` guards take the ISO branch. -/
def ProcessInfo.to_dict (p : ProcessInfo) : ProcessInfoDict :=
  ⟨p.group_name, p.pid, p.status, p.restart_count,
    some (isoformat p.last_check_time), some (isoformat p.last_start_time),
    p.was_restarted, p.need_alert⟩

/-- Model of `ProcessInfo.from_dict`: parse the ISO timestamps when present
(`datetime.fromisoformat(...) if data.get(...) else None`; a parse
failure raises, modelled by `none`), then run `__init__`, whose
`x or datetime.now()` fills absent timestamps with `now`. -/
def ProcessInfo.from_dict (d : ProcessInfoDict) (now : PyDateTime) :
    Option ProcessInfo := do
  let lct ←
    match d.last_check_time with
    | some s => (fromisoformat s).map some
    | none => some none
  let lst ←
    match d.last_start_time with
    | some s => (fromisoformat s).map some
    | none => some none
  some ⟨d.group_name, d.pid, d.status, d.restart_count,
    lct.getD now, lst.getD now, d.was_restarted, d.need_alert⟩

/-! ## Helper lemmas -/

theorem lookupH_append (l1 l2 : List (String × HealthEntry)) (u : String) :
    lookupH (l1 ++ l2) u =
      match lookupH l1 u with
      | some v => some v
      | none => lookupH l2 u := by
  induction l1 with
  | nil => simp [lookupH]
  | cons p t ih =>
      obtain ⟨k, v⟩ := p
      by_cases h : u = k <;> simp [lookupH, h, ih]

theorem lookupH_singleton (x : String) (e : HealthEntry) (u : String) :
    lookupH [(x, e)] u = if u = x then some e else none := rfl

theorem lookupH_dropRemoved_of_mem (h : List (String × HealthEntry))
    (urls : List String) (u : String) (hu : u ∈ urls) :
    lookupH (dropRemoved h urls) u = lookupH h u := by
  induction h with
  | nil => rfl
  | cons p t ih =>
      obtain ⟨k, v⟩ := p
      by_cases hk : k ∈ urls
      · by_cases huk : u = k <;>
          simp [dropRemoved, List.filter_cons, hk, lookupH, huk] <;>
          simpa [dropRemoved] using ih
      · have huk : u ≠ k := fun e => hk (e ▸ hu)
        simp [dropRemoved, List.filter_cons, hk, lookupH, huk]
        simpa [dropRemoved] using ih

theorem lookupH_dropRemoved_of_not_mem (h : List (String × HealthEntry))
    (urls : List String) (u : String) (hu : u ∉ urls) :
    lookupH (dropRemoved h urls) u = none := by
  induction h with
  | nil => rfl
  | cons p t ih =>
      obtain ⟨k, v⟩ := p
      by_cases hk : k ∈ urls
      · have huk : u ≠ k := fun e => hu (e ▸ hk)
        simp [dropRemoved, List.filter_cons, hk, lookupH, huk]
        simpa [dropRemoved] using ih
      · simp [dropRemoved, List.filter_cons, hk]
        simpa [dropRemoved] using ih

theorem lookupH_dropRemoved_none (h : List (String × HealthEntry))
    (urls : List String) (u : String) (hn : lookupH h u = none) :
    lookupH (dropRemoved h urls) u = none := by
  induction h with
  | nil => rfl
  | cons p t ih =>
      obtain ⟨k, v⟩ := p
      by_cases huk : u = k
      · simp [lookupH, huk] at hn
      · simp [lookupH, huk] at hn
        by_cases hk : k ∈ urls <;>
          simp [dropRemoved, List.filter_cons, hk, lookupH, huk] <;>
          simpa [dropRemoved] using ih hn

theorem addNew_cons (h : List (String × HealthEntry)) (x : String)
    (us : List String) :
    addNew h (x :: us) =
      addNew (if (lookupH h x).isSome then h else h ++ [(x, ⟨0, false⟩)]) us := rfl

theorem lookupH_addNew_of_isSome (h : List (String × HealthEntry))
    (urls : List String) (u : String) (hs : (lookupH h u).isSome) :
    lookupH (addNew h urls) u = lookupH h u := by
  induction urls generalizing h with
  | nil => rfl
  | cons x us ih =>
      rw [addNew_cons]
      by_cases hx : (lookupH h x).isSome
      · rw [if_pos hx]; exact ih h hs
      · rw [if_neg hx]
        obtain ⟨v, hv⟩ := Option.isSome_iff_exists.mp hs
        have happ : lookupH (h ++ [(x, ⟨0, false⟩)]) u = lookupH h u := by
          rw [lookupH_append, hv]
        rw [ih _ (by rw [happ]; exact hs), happ]

theorem lookupH_addNew_of_not_mem (h : List (String × HealthEntry))
    (urls : List String) (u : String) (hu : u ∉ urls)
    (hn : lookupH h u = none) :
    lookupH (addNew h urls) u = none := by
  induction urls generalizing h with
  | nil => simpa [addNew] using hn
  | cons x us ih =>
      have hux : u ≠ x := fun e => hu (e ▸ List.mem_cons_self x us)
      have hus : u ∉ us := fun e => hu (List.mem_cons_of_mem x e)
      rw [addNew_cons]
      by_cases hx : (lookupH h x).isSome
      · rw [if_pos hx]; exact ih h hus hn
      · rw [if_neg hx]
        refine ih _ hus ?_
        rw [lookupH_append, hn, lookupH_singleton, if_neg hux]

theorem lookupH_addNew_of_none_mem (h : List (String × HealthEntry))
    (urls : List String) (u : String) (hn : lookupH h u = none)
    (hu : u ∈ urls) :
    lookupH (addNew h urls) u = some ⟨0, false⟩ := by
  induction urls generalizing h with
  | nil => cases hu
  | cons x us ih =>
      rw [addNew_cons]
      by_cases hux : u = x
      · subst hux
        rw [if_neg (by simp [hn])]
        have happ : lookupH (h ++ [(u, ⟨0, false⟩)]) u = some ⟨0, false⟩ := by
          rw [lookupH_append, hn, lookupH_singleton, if_pos rfl]
        rw [lookupH_addNew_of_isSome _ _ _ (by rw [happ]; rfl), happ]
      · rcases List.mem_cons.mp hu with h1 | h1
        · exact absurd h1 hux
        by_cases hx : (lookupH h x).isSome
        · rw [if_pos hx]; exact ih h hn h1
        · rw [if_neg hx]
          refine ih _ ?_ h1
          rw [lookupH_append, hn, lookupH_singleton, if_neg hux]

theorem digitVal?_digitChar {k : Nat} (h : k < 10) :
    digitVal? (digitChar k) = some k := by
  interval_cases k <;> rfl

theorem parse2_pads {n : Nat} (h : n < 100) :
    parse2 (digitChar (n / 10)) (digitChar (n % 10)) = some n := by
  simp [parse2, digitVal?_digitChar (show n / 10 < 10 by omega),
    digitVal?_digitChar (show n % 10 < 10 by omega)]
  omega

theorem parse4_pads {n : Nat} (h : n < 10000) :
    parse4 (digitChar (n / 1000)) (digitChar (n / 100 % 10))
      (digitChar (n / 10 % 10)) (digitChar (n % 10)) = some n := by
  simp [parse4, parse2, digitVal?_digitChar (show n / 1000 < 10 by omega),
    digitVal?_digitChar (show n / 100 % 10 < 10 by omega),
    digitVal?_digitChar (show n / 10 % 10 < 10 by omega),
    digitVal?_digitChar (show n % 10 < 10 by omega)]
  omega

theorem parse6_pads {n : Nat} (h : n < 1000000) :
    parse6 (digitChar (n / 100000)) (digitChar (n / 10000 % 10))
      (digitChar (n / 1000 % 10)) (digitChar (n / 100 % 10))
      (digitChar (n / 10 % 10)) (digitChar (n % 10)) = some n := by
  simp [parse6, parse2, digitVal?_digitChar (show n / 100000 < 10 by omega),
    digitVal?_digitChar (show n / 10000 % 10 < 10 by omega),
    digitVal?_digitChar (show n / 1000 % 10 < 10 by omega),
    digitVal?_digitChar (show n / 100 % 10 < 10 by omega),
    digitVal?_digitChar (show n / 10 % 10 < 10 by omega),
    digitVal?_digitChar (show n % 10 < 10 by omega)]
  omega

theorem fromisoformat_isoformat (t : PyDateTime) (h : t.Valid) :
    fromisoformat (isoformat t) = some t := by
  obtain ⟨y, mo, d, hh, mi, s, us⟩ := t
  obtain ⟨h1, h2, h3, h4, h5, h6, h7⟩ := h
  by_cases hus : us = 0
  · subst hus
    simp only [isoformat, pad4, pad2, if_pos rfl, List.cons_append,
      List.nil_append, List.append_nil]
    simp only [fromisoformat, parseFraction, parse4_pads h1, parse2_pads h2,
      parse2_pads h3, parse2_pads h4, parse2_pads h5, parse2_pads h6,
      Option.bind_some]
    simp
  · simp only [isoformat, pad4, pad2, pad6, if_neg hus, List.cons_append,
      List.nil_append, List.append_nil]
    simp only [fromisoformat, parseFraction, parse4_pads h1, parse2_pads h2,
      parse2_pads h3, parse2_pads h4, parse2_pads h5, parse2_pads h6,
      parse6_pads h7, Option.bind_some]
    simp

theorem retryAfter_eq_trailingFailures (outcomes : List Bool) :
    retryAfter outcomes = trailingFailures outcomes := by
  induction outcomes using List.reverseRecOn with
  | nil => rfl
  | append_singleton xs x ih =>
      cases x <;>
        simp [retryAfter, trailingFailures, List.foldl_append,
          List.reverse_append, List.takeWhile] <;>
        simpa [retryAfter, trailingFailures] using ih

/-! ## Claims about the health-state machine -/

/-- C1: for every target state and every `unhealthyThreshold ≥ 1`, a
failing check (non-200 status, latency over the timeout, or an
exception) increments the target's consecutive-failure count by exactly
one, and a warning-severity `site` alert is emitted by that check iff
the incremented count is congruent to 0 modulo the threshold, in which
case `alerted` is also set to true; a failure whose incremented count is
not a multiple of the threshold emits no alert and leaves `alerted`
unchanged. -/
theorem C1_failing_check (unhealthy_threshold timeoutMicros : Nat)
    (o : CheckOutcome) (st : HealthEntry)
    (ht : 1 ≤ unhealthy_threshold) (ho : failingOutcome timeoutMicros o) :
    ∃ st' alerts,
      check_health unhealthy_threshold timeoutMicros o st = .ok (st', alerts) ∧
      st'.count = st.count + 1 ∧
      ((st.count + 1) % unhealthy_threshold = 0 →
        alerts = [⟨.warning, .site⟩] ∧ st'.alerted = true) ∧
      ((st.count + 1) % unhealthy_threshold ≠ 0 →
        alerts = [] ∧ st'.alerted = st.alerted) := by
  have hb : check_health unhealthy_threshold timeoutMicros o st =
      check_health_failure unhealthy_threshold st := by
    cases o with
    | response code e =>
        have ho' : code ≠ 200 ∨ e > timeoutMicros := ho
        simp only [check_health]; rw [if_pos ho']
    | exc => rfl
  rw [hb]
  unfold check_health_failure
  rw [if_neg (by omega)]
  by_cases hm : (st.count + 1) % unhealthy_threshold = 0
  · exact ⟨_, _, rfl, rfl, fun _ => by simp [hm], fun hc => absurd hm hc⟩
  · exact ⟨_, _, rfl, rfl, fun hc => absurd hc hm, fun _ => by simp [hm]⟩

/-- Witness for C1: threshold 3, an exception outcome, prior count 2. -/
theorem C1_witness :
    1 ≤ 3 ∧ failingOutcome 5000000 CheckOutcome.exc ∧
    ∃ st' alerts,
      check_health 3 5000000 CheckOutcome.exc ⟨2, false⟩ = .ok (st', alerts) ∧
      st'.count = 2 + 1 ∧
      ((2 + 1) % 3 = 0 → alerts = [⟨.warning, .site⟩] ∧ st'.alerted = true) ∧
      ((2 + 1) % 3 ≠ 0 → alerts = [] ∧ st'.alerted = false) :=
  ⟨by decide, by decide,
    C1_failing_check 3 5000000 CheckOutcome.exc ⟨2, false⟩ (by decide) (by decide)⟩

/-- Counterexample to C2 as stated: on a successful check of a target
with `alerted = true`, the recovery notification is emitted, but not
before the state is cleared — no emission event precedes the
state-clearing event in the success branch's trace. -/
theorem C2_counterexample :
    SuccessEvent.emitRecovery ∈ check_health_success_events ⟨3, true⟩ ∧
    SuccessEvent.emitRecovery ∉
      (check_health_success_events ⟨3, true⟩).takeWhile
        (fun e => decide (e ≠ SuccessEvent.clearState)) := by
  decide

/-- C2 (amended): a successful check emits exactly one info-severity
recovery notification iff `alerted` was true at the start of the check;
the notification is emitted after the state is cleared (it is decided by
the `alerted` value read under the lock before clearing); and after the
check the target's state is `count = 0`, `alerted = false`.  A
successful check with `alerted` false emits no notification. -/
theorem C2_success_recovery (unhealthy_threshold timeoutMicros : Nat)
    (o : CheckOutcome) (st : HealthEntry)
    (ho : ¬ failingOutcome timeoutMicros o) :
    ∃ st' alerts,
      check_health unhealthy_threshold timeoutMicros o st = .ok (st', alerts) ∧
      st'.count = 0 ∧ st'.alerted = false ∧
      (st.alerted = true → alerts = [⟨.info, .site⟩]) ∧
      (st.alerted = false → alerts = []) ∧
      (st.alerted = true →
        check_health_success_events st =
          [SuccessEvent.clearState, SuccessEvent.emitRecovery]) ∧
      (st.alerted = false →
        check_health_success_events st = [SuccessEvent.clearState]) := by
  cases o with
  | exc => exact absurd trivial ho
  | response code e =>
      have hcond : ¬ (code ≠ 200 ∨ e > timeoutMicros) := ho
      refine ⟨⟨0, false⟩, if st.alerted then [⟨.info, .site⟩] else [],
        ?_, rfl, rfl, ?_, ?_, ?_, ?_⟩
      · simp only [check_health]; rw [if_neg hcond]; rfl
      · intro hab; rw [if_pos hab]
      · intro hab; rw [if_neg (by simp [hab])]
      · intro hab; simp [check_health_success_events, hab]
      · intro hab; simp [check_health_success_events, hab]

/-- Witness for C2 (amended): a 200 response within the timeout for a
target in an alerted streak. -/
theorem C2_witness :
    ¬ failingOutcome 5000000 (CheckOutcome.response 200 1000) ∧
    ∃ st' alerts,
      check_health 3 5000000 (CheckOutcome.response 200 1000) ⟨7, true⟩ =
        .ok (st', alerts) ∧
      st'.count = 0 ∧ st'.alerted = false ∧
      (true = true → alerts = [⟨.info, .site⟩]) ∧
      (true = false → alerts = []) ∧
      (true = true →
        check_health_success_events ⟨7, true⟩ =
          [SuccessEvent.clearState, SuccessEvent.emitRecovery]) ∧
      (true = false →
        check_health_success_events ⟨7, true⟩ = [SuccessEvent.clearState]) :=
  ⟨by decide,
    C2_success_recovery 3 5000000 (CheckOutcome.response 200 1000) ⟨7, true⟩
      (by decide)⟩

/-- C6: the claim says a configured `unhealthyThreshold` of 0 is
rejected by configuration validation before any health check runs.  The
source has no such validation: merging a group config that sets the
value to 0 yields threshold 0 unchecked, and the next failing check's
`count % unhealthy_threshold` raises `ZeroDivisionError`. -/
theorem C6_zero_threshold_accepted (globalC : Config) :
    loadUnhealthyThreshold
      (merge_configs globalC [("unhealthy_threshold", 0)]) = 0 ∧
    check_health 0 5000000 CheckOutcome.exc ⟨0, false⟩ =
      .error .zeroDivision := by
  constructor
  · simp [loadUnhealthyThreshold, merge_configs, configGet, List.lookup]
  · rfl

/-! ## Claims about the poll scheduler -/

/-- C7: after the reconciliation step of a polling cycle, the
health-state store's key set equals exactly the loaded target list:
every URL absent from the list has its entry deleted, and every URL
present but previously absent from the store (including one re-added
after removal) gets the entry `{count: 0, alerted: false}`. -/
theorem C7_reconcile (h : List (String × HealthEntry)) (urls : List String)
    (u : String) :
    ((lookupH (reconcile h urls) u).isSome ↔ u ∈ urls) ∧
    (lookupH h u = none → u ∈ urls →
      lookupH (reconcile h urls) u = some ⟨0, false⟩) ∧
    (u ∉ urls → lookupH (reconcile h urls) u = none) := by
  have part3 : u ∉ urls → lookupH (reconcile h urls) u = none := by
    intro hu
    unfold reconcile
    exact lookupH_addNew_of_not_mem _ _ _ hu
      (lookupH_dropRemoved_of_not_mem _ _ _ hu)
  refine ⟨⟨?_, ?_⟩, ?_, part3⟩
  · intro hs
    by_contra hu
    rw [part3 hu] at hs
    simp at hs
  · intro hu
    unfold reconcile
    cases hc : lookupH (dropRemoved h urls) u with
    | none => rw [lookupH_addNew_of_none_mem _ _ _ hc hu]; rfl
    | some v => rw [lookupH_addNew_of_isSome _ _ _ (by rw [hc]; rfl), hc]; rfl
  · intro hn hu
    unfold reconcile
    exact lookupH_addNew_of_none_mem _ _ _
      (lookupH_dropRemoved_none _ _ _ hn) hu

/-- Witness for C7: store `{a ↦ (2, true)}` reconciled against the
target list `[b]`: the removed URL `a` is dropped and the new URL `b`
starts at `{count: 0, alerted: false}`. -/
theorem C7_witness :
    lookupH (reconcile [("a", ⟨2, true⟩)] ["b"]) "b" = some ⟨0, false⟩ ∧
    lookupH (reconcile [("a", ⟨2, true⟩)] ["b"]) "a" = none :=
  ⟨(C7_reconcile [("a", ⟨2, true⟩)] ["b"] "b").2.1 (by decide) (by decide),
   (C7_reconcile [("a", ⟨2, true⟩)] ["b"] "a").2.2 (by decide)⟩

/-- C8: an exception escaping a polling cycle is caught at the cycle
boundary and followed by a backoff sleep of
`min(300, 10 * 2^(retries-1))` seconds, where `retries` counts the
consecutive failed cycles; a successful cycle resets the retry counter
to 0; and no cycle outcome changes the loop's running flag — only the
external stop request does. -/
theorem C8_cycle_backoff (interval : Nat) (st : MonitorLoopState)
    (failed : Bool) (outcomes : List Bool) :
    (monitor_urls_cycle interval st failed).1.running = st.running ∧
    (failed = true →
      (monitor_urls_cycle interval st failed).1.retry_count =
        st.retry_count + 1 ∧
      (monitor_urls_cycle interval st failed).2 =
        min 300
          (10 * 2 ^ ((monitor_urls_cycle interval st failed).1.retry_count - 1))) ∧
    (failed = false → (monitor_urls_cycle interval st failed).1.retry_count = 0) ∧
    retryAfter outcomes = trailingFailures outcomes ∧
    (monitor_stop st).running = false := by
  refine ⟨?_, ?_, ?_, retryAfter_eq_trailingFailures outcomes, rfl⟩
  · cases failed <;> rfl
  · intro hf; subst hf; exact ⟨rfl, rfl⟩
  · intro hf; subst hf; rfl

/-- Witness for C8: a failed cycle at retry count 2 backs off
`min(300, 10 * 2^2) = 40` seconds; a successful cycle resets the
counter. -/
theorem C8_witness :
    ((monitor_urls_cycle 60 ⟨true, 2⟩ true).1.retry_count = 2 + 1 ∧
      (monitor_urls_cycle 60 ⟨true, 2⟩ true).2 =
        min 300
          (10 * 2 ^ ((monitor_urls_cycle 60 ⟨true, 2⟩ true).1.retry_count - 1))) ∧
    (monitor_urls_cycle 60 ⟨true, 0⟩ false).1.retry_count = 0 :=
  ⟨(C8_cycle_backoff 60 ⟨true, 2⟩ true []).2.1 rfl,
   (C8_cycle_backoff 60 ⟨true, 0⟩ false []).2.2.1 rfl⟩

/-! ## Claims about the watchdog -/

/-- Counterexample to C3 as stated: a group over the restart cap
(restartCount = maxRestarts = 3) observed dead on two consecutive
watchdog passes receives the error-severity `process` alert twice, not
exactly once — `check_process` downgrades the StoppedMaxRestarts status
back to Stopped on the next pass, so `check_all_processes` re-enters the
alerting branch.  No restart is attempted on either pass. -/
theorem C3_counterexample :
    (run_group_passes "group2" 3
        (some ⟨"group2", some 100, .running, 3, ⟨2026, 1, 1, 0, 0, 0, 0⟩,
          ⟨2026, 1, 1, 0, 0, 0, 0⟩, false, true⟩)
        [⟨⟨none, false, false, false, ⟨2026, 1, 1, 0, 1, 0, 0⟩⟩,
            ⟨⟨2026, 1, 1, 0, 1, 2, 0⟩, true, true⟩⟩,
         ⟨⟨none, false, false, false, ⟨2026, 1, 1, 0, 2, 0, 0⟩⟩,
            ⟨⟨2026, 1, 1, 0, 2, 2, 0⟩, true, true⟩⟩]).2 =
      ([⟨.error, .proc⟩, ⟨.error, .proc⟩], 0) := by
  decide

/-- C3 (amended): on every watchdog pass that observes a group dead
(not classified as manually stopped) with `restartCount ≥ maxRestarts`,
the group's status transitions to StoppedMaxRestarts, exactly one
error-severity `process` alert is emitted on that pass (hence the alert
repeats on every such pass rather than firing once), no restart is
attempted, and `restartCount` is left unchanged — so no restart happens
until the counter is externally reset. -/
theorem C3_max_restarts (g : String) (max_restarts : Nat)
    (rec0 : Option ProcessInfo) (o : PassObs)
    (h1 : (check_process g rec0 o.chk).isRunning = false)
    (h2 : (check_process g rec0 o.chk).info.status ≠ .stoppedManually)
    (h3 : max_restarts ≤ (check_process g rec0 o.chk).info.restart_count) :
    (check_group g max_restarts rec0 o).alerts = [⟨.error, .proc⟩] ∧
    (check_group g max_restarts rec0 o).attemptedRestart = false ∧
    (check_group g max_restarts rec0 o).info.status = .stoppedMaxRestarts ∧
    (check_group g max_restarts rec0 o).info.restart_count =
      (check_process g rec0 o.chk).info.restart_count := by
  simp only [check_group, h1, Bool.false_eq_true, if_false]
  rw [if_neg h2, if_pos h3]
  exact ⟨rfl, rfl, rfl, rfl⟩

/-- Witness for C3 (amended): a dead group at the cap of 3 restarts. -/
theorem C3_witness :
    (check_group "group2" 3
        (some ⟨"group2", some 100, .running, 3, ⟨2026, 1, 1, 0, 0, 0, 0⟩,
          ⟨2026, 1, 1, 0, 0, 0, 0⟩, false, true⟩)
        ⟨⟨none, false, false, false, ⟨2026, 1, 1, 0, 1, 0, 0⟩⟩,
          ⟨⟨2026, 1, 1, 0, 1, 2, 0⟩, true, true⟩⟩).alerts = [⟨.error, .proc⟩] ∧
    (check_group "group2" 3
        (some ⟨"group2", some 100, .running, 3, ⟨2026, 1, 1, 0, 0, 0, 0⟩,
          ⟨2026, 1, 1, 0, 0, 0, 0⟩, false, true⟩)
        ⟨⟨none, false, false, false, ⟨2026, 1, 1, 0, 1, 0, 0⟩⟩,
          ⟨⟨2026, 1, 1, 0, 1, 2, 0⟩, true, true⟩⟩).attemptedRestart = false ∧
    (check_group "group2" 3
        (some ⟨"group2", some 100, .running, 3, ⟨2026, 1, 1, 0, 0, 0, 0⟩,
          ⟨2026, 1, 1, 0, 0, 0, 0⟩, false, true⟩)
        ⟨⟨none, false, false, false, ⟨2026, 1, 1, 0, 1, 0, 0⟩⟩,
          ⟨⟨2026, 1, 1, 0, 1, 2, 0⟩, true, true⟩⟩).info.status =
      .stoppedMaxRestarts ∧
    (check_group "group2" 3
        (some ⟨"group2", some 100, .running, 3, ⟨2026, 1, 1, 0, 0, 0, 0⟩,
          ⟨2026, 1, 1, 0, 0, 0, 0⟩, false, true⟩)
        ⟨⟨none, false, false, false, ⟨2026, 1, 1, 0, 1, 0, 0⟩⟩,
          ⟨⟨2026, 1, 1, 0, 1, 2, 0⟩, true, true⟩⟩).info.restart_count = 3 :=
  C3_max_restarts "group2" 3
    (some ⟨"group2", some 100, .running, 3, ⟨2026, 1, 1, 0, 0, 0, 0⟩,
      ⟨2026, 1, 1, 0, 0, 0, 0⟩, false, true⟩)
    ⟨⟨none, false, false, false, ⟨2026, 1, 1, 0, 1, 0, 0⟩⟩,
      ⟨⟨2026, 1, 1, 0, 1, 2, 0⟩, true, true⟩⟩
    (by decide) (by decide) (by decide)

/-- Counterexample to C4 as stated: a group observed dead (stale PID)
with restartCount 0 < maxRestarts 5, checked 30 seconds earlier with
status already Stopped, whose record's `need_alert` flag is false (as a
previous suppressed restart leaves it): the watchdog attempts no restart
at all and does not increment `restartCount`, contradicting the claim
that the suppression never affects whether a restart is attempted. -/
theorem C4_counterexample :
    microsBetween ⟨2026, 1, 1, 0, 0, 30, 0⟩ ⟨2026, 1, 1, 0, 0, 0, 0⟩ <
        60 * 1000000 ∧
    (check_group "group2" 5
        (some ⟨"group2", some 100, .stopped, 0, ⟨2026, 1, 1, 0, 0, 0, 0⟩,
          ⟨2026, 1, 1, 0, 0, 0, 0⟩, false, false⟩)
        ⟨⟨some 100, true, false, false, ⟨2026, 1, 1, 0, 0, 30, 0⟩⟩,
          ⟨⟨2026, 1, 1, 0, 0, 32, 0⟩, true, true⟩⟩).attemptedRestart = false ∧
    (check_group "group2" 5
        (some ⟨"group2", some 100, .stopped, 0, ⟨2026, 1, 1, 0, 0, 0, 0⟩,
          ⟨2026, 1, 1, 0, 0, 0, 0⟩, false, false⟩)
        ⟨⟨some 100, true, false, false, ⟨2026, 1, 1, 0, 0, 30, 0⟩⟩,
          ⟨⟨2026, 1, 1, 0, 0, 32, 0⟩, true, true⟩⟩).info.restart_count = 0 := by
  decide

/-- C4 (amended): for a group observed dead via a stale PID with
`restartCount < maxRestarts` whose record's `need_alert` flag is true at
the start of the pass, if the restart attempt happens less than 60
seconds after the record's check, the watchdog suppresses alerting for
the attempt (stored `need_alert` becomes false and no alert is emitted
on a successful restart) while still incrementing `restartCount` and
still attempting the restart. -/
theorem C4_startup_window (g : String) (max_restarts : Nat)
    (r : ProcessInfo) (o : PassObs) (p : Nat)
    (hna : r.need_alert = true)
    (hst : r.status = .stopped)
    (hrc : r.restart_count < max_restarts)
    (hpid : o.chk.filePid = some p)
    (hold : r.pid = some p)
    (hdead : o.chk.alive = false)
    (hrecent : microsBetween o.rst.now o.chk.now < 60 * 1000000)
    (hspawn : o.rst.spawnOk = true)
    (halive : o.rst.newPidAlive = true) :
    (check_group g max_restarts (some r) o).attemptedRestart = true ∧
    (check_group g max_restarts (some r) o).info.restart_count =
      r.restart_count + 1 ∧
    (check_group g max_restarts (some r) o).info.need_alert = false ∧
    (check_group g max_restarts (some r) o).alerts = [] := by
  obtain ⟨gn, rpid, rst0, rrc, rlct, rlst, rwr, rna⟩ := r
  obtain ⟨⟨fpid, fex, al, cm, cnow⟩, ⟨rnow, sok, npa⟩⟩ := o
  simp only at hna hst hrc hpid hold hdead hrecent hspawn halive
  subst hna hst hpid hold hdead hspawn halive
  have h60 : microsBetween rnow cnow < 60000000 := by omega
  have hcp : check_process g
      (some ⟨gn, some p, .stopped, rrc, rlct, rlst, rwr, true⟩)
      ⟨some p, fex, false, cm, cnow⟩ =
      ⟨⟨gn, some p, .stopped, rrc, cnow, rlst, rwr, true⟩, false, fex⟩ := by
    simp [check_process]
  have hrp : restart_process
      ⟨gn, some p, .stopped, rrc, cnow, rlst, rwr, true⟩ ⟨rnow, true, true⟩ =
      (⟨gn, some p, .stopped, rrc + 1, cnow, rnow, true, false⟩, true) := by
    simp [restart_process, h60]
  have hge : ¬ (max_restarts ≤ rrc) := by omega
  simp [check_group, hcp, hrp, hge]

/-- Witness for C4 (amended): record with `need_alert = true`, stale
dead PID, restart attempted 32 seconds after the previous check. -/
theorem C4_witness :
    (check_group "group2" 5
        (some ⟨"group2", some 100, .stopped, 0, ⟨2026, 1, 1, 0, 0, 0, 0⟩,
          ⟨2026, 1, 1, 0, 0, 0, 0⟩, false, true⟩)
        ⟨⟨some 100, true, false, false, ⟨2026, 1, 1, 0, 0, 30, 0⟩⟩,
          ⟨⟨2026, 1, 1, 0, 0, 32, 0⟩, true, true⟩⟩).attemptedRestart = true ∧
    (check_group "group2" 5
        (some ⟨"group2", some 100, .stopped, 0, ⟨2026, 1, 1, 0, 0, 0, 0⟩,
          ⟨2026, 1, 1, 0, 0, 0, 0⟩, false, true⟩)
        ⟨⟨some 100, true, false, false, ⟨2026, 1, 1, 0, 0, 30, 0⟩⟩,
          ⟨⟨2026, 1, 1, 0, 0, 32, 0⟩, true, true⟩⟩).info.restart_count = 0 + 1 ∧
    (check_group "group2" 5
        (some ⟨"group2", some 100, .stopped, 0, ⟨2026, 1, 1, 0, 0, 0, 0⟩,
          ⟨2026, 1, 1, 0, 0, 0, 0⟩, false, true⟩)
        ⟨⟨some 100, true, false, false, ⟨2026, 1, 1, 0, 0, 30, 0⟩⟩,
          ⟨⟨2026, 1, 1, 0, 0, 32, 0⟩, true, true⟩⟩).info.need_alert = false ∧
    (check_group "group2" 5
        (some ⟨"group2", some 100, .stopped, 0, ⟨2026, 1, 1, 0, 0, 0, 0⟩,
          ⟨2026, 1, 1, 0, 0, 0, 0⟩, false, true⟩)
        ⟨⟨some 100, true, false, false, ⟨2026, 1, 1, 0, 0, 30, 0⟩⟩,
          ⟨⟨2026, 1, 1, 0, 0, 32, 0⟩, true, true⟩⟩).alerts = [] :=
  C4_startup_window "group2" 5
    ⟨"group2", some 100, .stopped, 0, ⟨2026, 1, 1, 0, 0, 0, 0⟩,
      ⟨2026, 1, 1, 0, 0, 0, 0⟩, false, true⟩
    ⟨⟨some 100, true, false, false, ⟨2026, 1, 1, 0, 0, 30, 0⟩⟩,
      ⟨⟨2026, 1, 1, 0, 0, 32, 0⟩, true, true⟩⟩
    100 rfl rfl (by decide) rfl rfl rfl (by decide) rfl rfl

/-- Counterexample to C5 as stated: the stale-PID outcome is not
identical to the no-PID-file outcome.  Starting from the same record
whose prior status is Stopped, a stale dead PID yields status Stopped,
while an absent PID file yields status StoppedManually. -/
theorem C5_counterexample :
    (check_process "group2"
        (some ⟨"group2", some 100, .stopped, 0, ⟨2026, 1, 1, 0, 0, 0, 0⟩,
          ⟨2026, 1, 1, 0, 0, 0, 0⟩, false, true⟩)
        ⟨some 100, true, false, false, ⟨2026, 1, 1, 0, 1, 0, 0⟩⟩).info.status =
      PStatus.stopped ∧
    (check_process "group2"
        (some ⟨"group2", some 100, .stopped, 0, ⟨2026, 1, 1, 0, 0, 0, 0⟩,
          ⟨2026, 1, 1, 0, 0, 0, 0⟩, false, true⟩)
        ⟨none, false, false, false, ⟨2026, 1, 1, 0, 1, 0, 0⟩⟩).info.status =
      PStatus.stoppedManually ∧
    PStatus.stopped ≠ PStatus.stoppedManually := by
  decide

/-- C5 (amended): whenever the PID read from the PID file denotes no
live process, or a live process whose command line does not reference
the group's monitor entry point, the liveness check reports the group
not running with status Stopped and removes the stale PID file.  Unlike
the no-PID-file case, the prior-status-based manual-stop
reclassification is not applied. -/
theorem C5_stale_pid (g : String) (rec0 : Option ProcessInfo)
    (o : CheckObs) (p : Nat)
    (hp : o.filePid = some p) (hex : o.pidFileExists = true)
    (hstale : o.alive = false ∨ o.cmdlineMatches = false) :
    (check_process g rec0 o).isRunning = false ∧
    (check_process g rec0 o).info.status = .stopped ∧
    (check_process g rec0 o).removedPidFile = true := by
  rcases hstale with hdead | hcmd
  · simp [check_process, hp, hdead, hex]
  · cases ha : o.alive
    · simp [check_process, hp, ha, hex]
    · simp [check_process, hp, ha, hcmd, hex]

/-- Witness for C5 (amended): a live PID whose command line does not
match the group's monitor script. -/
theorem C5_witness :
    (check_process "group2" none
        ⟨some 100, true, true, false, ⟨2026, 1, 1, 0, 0, 0, 0⟩⟩).isRunning =
      false ∧
    (check_process "group2" none
        ⟨some 100, true, true, false, ⟨2026, 1, 1, 0, 0, 0, 0⟩⟩).info.status =
      .stopped ∧
    (check_process "group2" none
        ⟨some 100, true, true, false,
          ⟨2026, 1, 1, 0, 0, 0, 0⟩⟩).removedPidFile = true :=
  C5_stale_pid "group2" none
    ⟨some 100, true, true, false, ⟨2026, 1, 1, 0, 0, 0, 0⟩⟩ 100
    rfl rfl (Or.inr rfl)

/-- Counterexample to C9 as stated: a group whose PID file is absent and
whose prior recorded status is plain Stopped (for example after a crash
and an unsuccessful restart) is classified StoppedManually, not
Stopped. -/
theorem C9_counterexample :
    (check_process "group2"
        (some ⟨"group2", none, .stopped, 1, ⟨2026, 1, 1, 0, 0, 0, 0⟩,
          ⟨2026, 1, 1, 0, 0, 0, 0⟩, false, true⟩)
        ⟨none, false, false, false, ⟨2026, 1, 1, 0, 1, 0, 0⟩⟩).info.status =
      PStatus.stoppedManually ∧
    PStatus.stoppedManually ≠ PStatus.stopped := by
  decide

/-- C9 (amended): with the PID file absent, the liveness check
classifies a group as StoppedManually when the prior recorded status
either already indicated a manual stop or was plain Stopped; such a
group gets `need_alert = false` and the watchdog pass neither alerts
nor attempts a restart.  Plain Stopped results only when the prior
status was Unknown, Running, or StoppedMaxRestarts. -/
theorem C9_manual_classification (g : String) (r : ProcessInfo)
    (o : PassObs) (max_restarts : Nat) (hpid : o.chk.filePid = none) :
    ((r.status = .stopped ∨ r.status = .stoppedManually) →
      (check_process g (some r) o.chk).info.status = .stoppedManually ∧
      (check_process g (some r) o.chk).info.need_alert = false ∧
      (check_group g max_restarts (some r) o).alerts = [] ∧
      (check_group g max_restarts (some r) o).attemptedRestart = false) ∧
    ((r.status ≠ .stopped ∧ r.status ≠ .stoppedManually) →
      (check_process g (some r) o.chk).info.status = .stopped) := by
  constructor
  · intro hs
    have hcp : check_process g (some r) o.chk =
        ⟨{ r with
            pid := none
            last_check_time := o.chk.now
            status := .stoppedManually
            need_alert := false },
          false, o.chk.pidFileExists⟩ := by
      rcases hs with hs | hs <;> simp [check_process, hpid, hs]
    refine ⟨by rw [hcp], by rw [hcp], ?_, ?_⟩ <;> simp [check_group, hcp]
  · rintro ⟨hs1, hs2⟩
    simp [check_process, hpid, hs1, hs2]

/-- Witness for C9 (amended): prior status plain Stopped with the PID
file absent. -/
theorem C9_witness :
    ((PStatus.stopped = PStatus.stopped ∨
        PStatus.stopped = PStatus.stoppedManually) →
      (check_process "group2"
          (some ⟨"group2", none, .stopped, 1, ⟨2026, 1, 1, 0, 0, 0, 0⟩,
            ⟨2026, 1, 1, 0, 0, 0, 0⟩, false, true⟩)
          ⟨none, false, false, false,
            ⟨2026, 1, 1, 0, 1, 0, 0⟩⟩).info.status = .stoppedManually ∧
      (check_process "group2"
          (some ⟨"group2", none, .stopped, 1, ⟨2026, 1, 1, 0, 0, 0, 0⟩,
            ⟨2026, 1, 1, 0, 0, 0, 0⟩, false, true⟩)
          ⟨none, false, false, false,
            ⟨2026, 1, 1, 0, 1, 0, 0⟩⟩).info.need_alert = false ∧
      (check_group "group2" 5
          (some ⟨"group2", none, .stopped, 1, ⟨2026, 1, 1, 0, 0, 0, 0⟩,
            ⟨2026, 1, 1, 0, 0, 0, 0⟩, false, true⟩)
          ⟨⟨none, false, false, false, ⟨2026, 1, 1, 0, 1, 0, 0⟩⟩,
            ⟨⟨2026, 1, 1, 0, 1, 2, 0⟩, true, true⟩⟩).alerts = [] ∧
      (check_group "group2" 5
          (some ⟨"group2", none, .stopped, 1, ⟨2026, 1, 1, 0, 0, 0, 0⟩,
            ⟨2026, 1, 1, 0, 0, 0, 0⟩, false, true⟩)
          ⟨⟨none, false, false, false, ⟨2026, 1, 1, 0, 1, 0, 0⟩⟩,
            ⟨⟨2026, 1, 1, 0, 1, 2, 0⟩, true, true⟩⟩).attemptedRestart = false) ∧
    ((PStatus.stopped ≠ PStatus.stopped ∧
        PStatus.stopped ≠ PStatus.stoppedManually) →
      (check_process "group2"
          (some ⟨"group2", none, .stopped, 1, ⟨2026, 1, 1, 0, 0, 0, 0⟩,
            ⟨2026, 1, 1, 0, 0, 0, 0⟩, false, true⟩)
          ⟨none, false, false, false,
            ⟨2026, 1, 1, 0, 1, 0, 0⟩⟩).info.status = .stopped) :=
  C9_manual_classification "group2"
    ⟨"group2", none, .stopped, 1, ⟨2026, 1, 1, 0, 0, 0, 0⟩,
      ⟨2026, 1, 1, 0, 0, 0, 0⟩, false, true⟩
    ⟨⟨none, false, false, false, ⟨2026, 1, 1, 0, 1, 0, 0⟩⟩,
      ⟨⟨2026, 1, 1, 0, 1, 2, 0⟩, true, true⟩⟩ 5 rfl

/-- C10: deserializing the serialized form of a supervision record
reproduces it field for field — `from_dict (to_dict r)` preserves
`group_name`, `pid`, `status`, `restart_count`, `last_check_time`,
`last_start_time`, `was_restarted` and `need_alert` (the timestamp
fields are always actual `datetime` values, modelled by the validity
bounds). -/
theorem C10_to_dict_from_dict (p : ProcessInfo) (now : PyDateTime)
    (h1 : p.last_check_time.Valid) (h2 : p.last_start_time.Valid) :
    ProcessInfo.from_dict (ProcessInfo.to_dict p) now = some p := by
  obtain ⟨g, pid, st, rc, lct, lst, wr, na⟩ := p
  simp [ProcessInfo.to_dict, ProcessInfo.from_dict,
    fromisoformat_isoformat _ h1, fromisoformat_isoformat _ h2]

/-- Witness for C10: a concrete record with both timestamps set. -/
theorem C10_witness :
    ProcessInfo.from_dict
      (ProcessInfo.to_dict
        ⟨"group2", some 42, .stoppedMaxRestarts, 7,
          ⟨2026, 1, 7, 9, 5, 30, 123456⟩, ⟨2025, 12, 31, 23, 59, 59, 0⟩,
          true, false⟩)
      ⟨2026, 1, 1, 0, 0, 0, 0⟩ =
    some ⟨"group2", some 42, .stoppedMaxRestarts, 7,
      ⟨2026, 1, 7, 9, 5, 30, 123456⟩, ⟨2025, 12, 31, 23, 59, 59, 0⟩,
      true, false⟩ :=
  C10_to_dict_from_dict
    ⟨"group2", some 42, .stoppedMaxRestarts, 7,
      ⟨2026, 1, 7, 9, 5, 30, 123456⟩, ⟨2025, 12, 31, 23, 59, 59, 0⟩,
      true, false⟩
    ⟨2026, 1, 1, 0, 0, 0, 0⟩ (by decide) (by decide)

end SiteMonitor
